import Mathlib

/-! Shallow embedding of the oqoqo demo server (src/index.ts, src/gaps.ts,
src/mappings.ts).  Pure data and pure computations are translated directly;
the remote GitHub operations performed by an endpoint are recorded in an
explicit `RemoteOp` trace and their results (pull-request number and URL,
branch name, fetched file contents, current time) are passed in as
parameters, so each handler becomes a pure state-transition function.
JavaScript's first-occurrence `String.prototype.replace` is modelled by
`replaceFirst`; none of the repository's replacement strings contains a
dollar sign, so JavaScript's special `$`-patterns in the replacement
argument do not arise. -/

namespace Oqoqo

/-- Static text from the repository sources. -/
def docGettingStartedInitial : String :=
  "---\nsidebar_position: 1\n---\n\n# Getting Started\n\nWelcome to the Acme API! This guide will help you get up and running quickly.\n\n## Base URL\n\nAll API requests should be made to:\n\n\x60\x60\x60\nhttps://api.acme.io/v1\n\x60\x60\x60\n\n## Authentication\n\nInclude your API key in the Authorization header:\n\n\x60\x60\x60bash\nAuthorization: Bearer YOUR_API_KEY\n\x60\x60\x60\n\nYou can obtain an API key from your [dashboard](https://dashboard.acme.io/api-keys).\n\n## Endpoints\n\n### Users\n\nManage user accounts in your application.\n\n| Method | Endpoint | Description |\n|--------|----------|-------------|\n| GET | \x60/users\x60 | List all users |\n| POST | \x60/users\x60 | Create a new user |\n| GET | \x60/users/:id\x60 | Get a user by ID |\n\n#### Example: List Users\n\n\x60\x60\x60bash\ncurl -X GET https://api.acme.io/v1/users \\\n  -H \"Authorization: Bearer YOUR_API_KEY\"\n\x60\x60\x60\n\nResponse:\n\n\x60\x60\x60json\n\x7b\n  \"data\": [\n    \x7b\n      \"id\": \"usr_123\",\n      \"email\": \"john@example.com\",\n      \"name\": \"John Doe\",\n      \"created_at\": \"2024-01-15T10:30:00Z\"\n    \x7d\n  ],\n  \"has_more\": false\n\x7d\n\x60\x60\x60\n\n### Products\n\nManage your product catalog.\n\n| Method | Endpoint | Description |\n|--------|----------|-------------|\n| GET | \x60/products\x60 | List all products |\n| POST | \x60/products\x60 | Create a new product |\n| GET | \x60/products/:id\x60 | Get a product by ID |\n\n#### Example: Create Product\n\n\x60\x60\x60bash\ncurl -X POST https://api.acme.io/v1/products \\\n  -H \"Authorization: Bearer YOUR_API_KEY\" \\\n  -H \"Content-Type: application/json\" \\\n  -d \x27\x7b\n    \"name\": \"Pro Plan\",\n    \"price\": 99.00,\n    \"currency\": \"USD\"\n  \x7d\x27\n\x60\x60\x60\n\n## Next Steps\n\n- Read the [Architecture Overview](./architecture) to understand our system\n- Follow the [How-To Guide](./how-to-guide) for step-by-step tutorials\n"

/-- Static text from the repository sources. -/
def docArchitectureInitial : String :=
  "---\nsidebar_position: 2\n---\n\n# Architecture Overview\n\nThe Acme platform is built on a modern microservices architecture designed for scalability and reliability.\n\n## System Components\n\n\x60\x60\x60\n┌─────────────┐     ┌─────────────┐     ┌─────────────┐\n│   API       │     │   Auth      │     │   Data      │\n│   Gateway   │────▶│   Service   │────▶│   Service   │\n└─────────────┘     └─────────────┘     └─────────────┘\n      │                                        │\n      │                                        ▼\n      │                               ┌─────────────┐\n      └──────────────────────────────▶│  PostgreSQL │\n                                      └─────────────┘\n\x60\x60\x60\n\n## Services\n\n### API Gateway\n\nThe API Gateway is the entry point for all client requests. It handles:\n\n- Request routing\n- Authentication verification\n- Request/response logging\n\n### Auth Service\n\nThe Auth Service manages user authentication and authorization:\n\n- API key validation\n- Session management\n- Permission checks\n\n### Data Service\n\nThe Data Service handles all database operations:\n\n- User CRUD operations\n- Product management\n- Data validation\n\n## Data Flow\n\n1. Client sends request to API Gateway\n2. Gateway validates authentication with Auth Service\n3. Valid requests are routed to Data Service\n4. Data Service performs database operations\n5. Response flows back through the Gateway\n\n## Technology Stack\n\n| Component | Technology |\n|-----------|------------|\n| API Gateway | Node.js / Express |\n| Auth Service | Node.js / Express |\n| Data Service | Node.js / Express |\n| Database | PostgreSQL |\n| Cache | Redis |\n\n## Deployment\n\nAll services are deployed on AWS using:\n\n- ECS for container orchestration\n- RDS for managed PostgreSQL\n- ElastiCache for Redis\n"

/-- Static text from the repository sources. -/
def docHowToGuideInitial : String :=
  "---\nsidebar_position: 3\n---\n\n# How-To Guide\n\nStep-by-step tutorials for common tasks.\n\n## Creating a User\n\nThis guide walks you through creating a new user via the API.\n\n### Prerequisites\n\n- An API key (get one from your [dashboard](https://dashboard.acme.io/api-keys))\n- A tool for making HTTP requests (curl, Postman, etc.)\n\n### Step 1: Prepare the Request\n\nCreate a JSON payload with the user details:\n\n\x60\x60\x60json\n\x7b\n  \"email\": \"newuser@example.com\",\n  \"name\": \"Jane Smith\"\n\x7d\n\x60\x60\x60\n\n### Step 2: Send the Request\n\nMake a POST request to the users endpoint:\n\n\x60\x60\x60bash\ncurl -X POST https://api.acme.io/v1/users \\\n  -H \"Authorization: Bearer YOUR_API_KEY\" \\\n  -H \"Content-Type: application/json\" \\\n  -d \x27\x7b\n    \"email\": \"newuser@example.com\",\n    \"name\": \"Jane Smith\"\n  \x7d\x27\n\x60\x60\x60\n\n### Step 3: Handle the Response\n\nA successful request returns the created user:\n\n\x60\x60\x60json\n\x7b\n  \"id\": \"usr_456\",\n  \"email\": \"newuser@example.com\",\n  \"name\": \"Jane Smith\",\n  \"created_at\": \"2024-01-20T14:22:00Z\"\n\x7d\n\x60\x60\x60\n\n### Common Errors\n\n| Status | Error | Solution |\n|--------|-------|----------|\n| 400 | Invalid email format | Check the email address is valid |\n| 401 | Unauthorized | Verify your API key is correct |\n| 409 | Email already exists | Use a different email address |\n\n## Fetching User Details\n\nTo retrieve a specific user by ID:\n\n\x60\x60\x60bash\ncurl -X GET https://api.acme.io/v1/users/usr_456 \\\n  -H \"Authorization: Bearer YOUR_API_KEY\"\n\x60\x60\x60\n\n## Listing All Users\n\nTo list all users in your account:\n\n\x60\x60\x60bash\ncurl -X GET https://api.acme.io/v1/users \\\n  -H \"Authorization: Bearer YOUR_API_KEY\"\n\x60\x60\x60\n\nThe response includes pagination info:\n\n\x60\x60\x60json\n\x7b\n  \"data\": [...],\n  \"has_more\": true,\n  \"next_cursor\": \"cur_abc123\"\n\x7d\n\x60\x60\x60\n"

/-- Static text from the repository sources. -/
def docGettingStartedUpdated : String :=
  "---\nsidebar_position: 1\n---\n\n# Getting Started\n\nWelcome to the Acme API! This guide will help you get up and running quickly.\n\n## Base URL\n\nAll API requests should be made to:\n\n\x60\x60\x60\nhttps://api.acme.io/v1\n\x60\x60\x60\n\n## Authentication\n\nInclude your API key in the Authorization header:\n\n\x60\x60\x60bash\nAuthorization: Bearer YOUR_API_KEY\n\x60\x60\x60\n\nYou can obtain an API key from your [dashboard](https://dashboard.acme.io/api-keys).\n\n## Rate Limiting\n\nAll endpoints are rate limited to **100 requests per minute** per API key. When exceeded, you\x27ll receive a \x60429 Too Many Requests\x60 response.\n\n## Endpoints\n\n### Users\n\nManage user accounts in your application.\n\n| Method | Endpoint | Description |\n|--------|----------|-------------|\n| GET | \x60/users\x60 | List all users (paginated) |\n| POST | \x60/users\x60 | Create a new user |\n| GET | \x60/users/:id\x60 | Get a user by ID |\n| PATCH | \x60/users/:id\x60 | Update a user |\n| DELETE | \x60/users/:id\x60 | Delete a user |\n\n#### Example: List Users\n\n\x60\x60\x60bash\ncurl -X GET https://api.acme.io/v1/users \\\n  -H \"Authorization: Bearer YOUR_API_KEY\"\n\x60\x60\x60\n\nResponse:\n\n\x60\x60\x60json\n\x7b\n  \"data\": [\n    \x7b\n      \"id\": \"usr_123\",\n      \"email\": \"john@example.com\",\n      \"name\": \"John Doe\",\n      \"role\": \"admin\",\n      \"created_at\": \"2024-01-15T10:30:00Z\",\n      \"updated_at\": \"2024-01-15T10:30:00Z\"\n    \x7d\n  ],\n  \"has_more\": false,\n  \"total\": 1\n\x7d\n\x60\x60\x60\n\n#### Example: Update User\n\n\x60\x60\x60bash\ncurl -X PATCH https://api.acme.io/v1/users/usr_123 \\\n  -H \"Authorization: Bearer YOUR_API_KEY\" \\\n  -H \"Content-Type: application/json\" \\\n  -d \x27\x7b\n    \"name\": \"John Updated\",\n    \"role\": \"member\"\n  \x7d\x27\n\x60\x60\x60\n\n#### Example: Delete User\n\n\x60\x60\x60bash\ncurl -X DELETE https://api.acme.io/v1/users/usr_123 \\\n  -H \"Authorization: Bearer YOUR_API_KEY\"\n\x60\x60\x60\n\n### Products\n\nManage your product catalog.\n\n| Method | Endpoint | Description |\n|--------|----------|-------------|\n| GET | \x60/products\x60 | List all products |\n| POST | \x60/products\x60 | Create a new product |\n| GET | \x60/products/:id\x60 | Get a product by ID |\n\n#### Example: Create Product\n\n\x60\x60\x60bash\ncurl -X POST https://api.acme.io/v1/products \\\n  -H \"Authorization: Bearer YOUR_API_KEY\" \\\n  -H \"Content-Type: application/json\" \\\n  -d \x27\x7b\n    \"name\": \"Pro Plan\",\n    \"price\": 99.00,\n    \"currency\": \"USD\"\n  \x7d\x27\n\x60\x60\x60\n\n## Error Handling\n\nAll errors follow a consistent format:\n\n\x60\x60\x60json\n\x7b\n  \"error\": \x7b\n    \"code\": \"VALIDATION_ERROR\",\n    \"message\": \"Invalid email format\",\n    \"field\": \"email\"\n  \x7d\n\x7d\n\x60\x60\x60\n\n| Status | Code | Description |\n|--------|------|-------------|\n| 400 | VALIDATION_ERROR | Invalid request body |\n| 401 | UNAUTHORIZED | Missing or invalid API key |\n| 404 | NOT_FOUND | Resource not found |\n| 429 | RATE_LIMITED | Too many requests |\n\n## Next Steps\n\n- Read the [Architecture Overview](./architecture) to understand our system\n- Follow the [How-To Guide](./how-to-guide) for step-by-step tutorials\n"

/-- Static text from the repository sources. -/
def docHowToGuideUpdated : String :=
  "---\nsidebar_position: 3\n---\n\n# How-To Guide\n\nStep-by-step tutorials for common tasks.\n\n## Creating a User\n\nThis guide walks you through creating a new user via the API.\n\n### Prerequisites\n\n- An API key (get one from your [dashboard](https://dashboard.acme.io/api-keys))\n- A tool for making HTTP requests (curl, Postman, etc.)\n\n### Step 1: Prepare the Request\n\nCreate a JSON payload with the user details:\n\n\x60\x60\x60json\n\x7b\n  \"email\": \"newuser@example.com\",\n  \"name\": \"Jane Smith\",\n  \"role\": \"member\"\n\x7d\n\x60\x60\x60\n\n**Available roles:** \x60admin\x60, \x60member\x60, \x60viewer\x60\n\n### Step 2: Send the Request\n\nMake a POST request to the users endpoint:\n\n\x60\x60\x60bash\ncurl -X POST https://api.acme.io/v1/users \\\n  -H \"Authorization: Bearer YOUR_API_KEY\" \\\n  -H \"Content-Type: application/json\" \\\n  -d \x27\x7b\n    \"email\": \"newuser@example.com\",\n    \"name\": \"Jane Smith\",\n    \"role\": \"member\"\n  \x7d\x27\n\x60\x60\x60\n\n### Step 3: Handle the Response\n\nA successful request returns the created user:\n\n\x60\x60\x60json\n\x7b\n  \"id\": \"usr_456\",\n  \"email\": \"newuser@example.com\",\n  \"name\": \"Jane Smith\",\n  \"role\": \"member\",\n  \"created_at\": \"2024-01-20T14:22:00Z\",\n  \"updated_at\": \"2024-01-20T14:22:00Z\"\n\x7d\n\x60\x60\x60\n\n### Common Errors\n\n| Status | Error | Solution |\n|--------|-------|----------|\n| 400 | Invalid email format | Check the email address is valid |\n| 400 | Invalid role | Use one of: admin, member, viewer |\n| 401 | Unauthorized | Verify your API key is correct |\n| 409 | Email already exists | Use a different email address |\n| 429 | Rate limited | Wait and retry after 60 seconds |\n\n## Updating a User\n\nTo update an existing user:\n\n\x60\x60\x60bash\ncurl -X PATCH https://api.acme.io/v1/users/usr_456 \\\n  -H \"Authorization: Bearer YOUR_API_KEY\" \\\n  -H \"Content-Type: application/json\" \\\n  -d \x27\x7b\n    \"name\": \"Jane Smith-Jones\",\n    \"role\": \"admin\"\n  \x7d\x27\n\x60\x60\x60\n\nOnly include the fields you want to update.\n\n## Deleting a User\n\nTo delete a user:\n\n\x60\x60\x60bash\ncurl -X DELETE https://api.acme.io/v1/users/usr_456 \\\n  -H \"Authorization: Bearer YOUR_API_KEY\"\n\x60\x60\x60\n\n**Note:** This action is irreversible.\n\n## Fetching User Details\n\nTo retrieve a specific user by ID:\n\n\x60\x60\x60bash\ncurl -X GET https://api.acme.io/v1/users/usr_456 \\\n  -H \"Authorization: Bearer YOUR_API_KEY\"\n\x60\x60\x60\n\n## Listing All Users\n\nTo list all users in your account:\n\n\x60\x60\x60bash\ncurl -X GET https://api.acme.io/v1/users \\\n  -H \"Authorization: Bearer YOUR_API_KEY\"\n\x60\x60\x60\n\nThe response includes pagination info:\n\n\x60\x60\x60json\n\x7b\n  \"data\": [...],\n  \"has_more\": true,\n  \"total\": 150,\n  \"next_cursor\": \"cur_abc123\"\n\x7d\n\x60\x60\x60\n\nUse the cursor for pagination:\n\n\x60\x60\x60bash\ncurl -X GET \"https://api.acme.io/v1/users?cursor=cur_abc123\" \\\n  -H \"Authorization: Bearer YOUR_API_KEY\"\n\x60\x60\x60\n"

/-- Static text from the repository sources. -/
def DEMO_CODE_BEFORE : String :=
  "import \x7b Router \x7d from \x27express\x27;\n\nconst router = Router();\n\n// In-memory storage for demo\nconst users: Array<\x7b id: string; email: string; name: string; created_at: string \x7d> = [\n  \x7b id: \x27usr_123\x27, email: \x27john@example.com\x27, name: \x27John Doe\x27, created_at: \x272024-01-15T10:30:00Z\x27 \x7d\n];\n\n// GET /users - List all users\nrouter.get(\x27/\x27, (req, res) => \x7b\n  res.json(\x7b\n    data: users,\n    has_more: false\n  \x7d);\n\x7d);\n\n// POST /users - Create a user\nrouter.post(\x27/\x27, (req, res) => \x7b\n  const \x7b email, name \x7d = req.body;\n  const newUser = \x7b\n    id: \x60usr_$\x7bDate.now()\x7d\x60,\n    email,\n    name,\n    created_at: new Date().toISOString()\n  \x7d;\n  users.push(newUser);\n  res.status(201).json(newUser);\n\x7d);\n\n// GET /users/:id - Get user by ID\nrouter.get(\x27/:id\x27, (req, res) => \x7b\n  const user = users.find(u => u.id === req.params.id);\n  if (!user) \x7b\n    return res.status(404).json(\x7b error: \x27User not found\x27 \x7d);\n  \x7d\n  res.json(user);\n\x7d);\n\nexport default router;\n"

/-- Static text from the repository sources. -/
def DEMO_CODE_AFTER : String :=
  "import \x7b Router \x7d from \x27express\x27;\n\nconst router = Router();\n\n// In-memory storage for demo\nconst users: Array<\x7b id: string; email: string; name: string; role: string; created_at: string; updated_at: string \x7d> = [\n  \x7b id: \x27usr_123\x27, email: \x27john@example.com\x27, name: \x27John Doe\x27, role: \x27admin\x27, created_at: \x272024-01-15T10:30:00Z\x27, updated_at: \x272024-01-15T10:30:00Z\x27 \x7d\n];\n\n// Rate limiting (simple in-memory)\nconst requestCounts = new Map<string, \x7b count: number; resetAt: number \x7d>();\nconst RATE_LIMIT = 100;\nconst RATE_WINDOW = 60000; // 1 minute\n\nconst checkRateLimit = (apiKey: string): boolean => \x7b\n  const now = Date.now();\n  const record = requestCounts.get(apiKey);\n\n  if (!record || now > record.resetAt) \x7b\n    requestCounts.set(apiKey, \x7b count: 1, resetAt: now + RATE_WINDOW \x7d);\n    return true;\n  \x7d\n\n  if (record.count >= RATE_LIMIT) \x7b\n    return false;\n  \x7d\n\n  record.count++;\n  return true;\n\x7d;\n\n// GET /users - List all users (paginated)\nrouter.get(\x27/\x27, (req, res) => \x7b\n  res.json(\x7b\n    data: users,\n    has_more: false,\n    total: users.length\n  \x7d);\n\x7d);\n\n// POST /users - Create a user\nrouter.post(\x27/\x27, (req, res) => \x7b\n  const \x7b email, name, role = \x27member\x27 \x7d = req.body;\n  const now = new Date().toISOString();\n  const newUser = \x7b\n    id: \x60usr_$\x7bDate.now()\x7d\x60,\n    email,\n    name,\n    role,\n    created_at: now,\n    updated_at: now\n  \x7d;\n  users.push(newUser);\n  res.status(201).json(newUser);\n\x7d);\n\n// GET /users/:id - Get user by ID\nrouter.get(\x27/:id\x27, (req, res) => \x7b\n  const user = users.find(u => u.id === req.params.id);\n  if (!user) \x7b\n    return res.status(404).json(\x7b error: \x7b code: \x27NOT_FOUND\x27, message: \x27User not found\x27 \x7d \x7d);\n  \x7d\n  res.json(user);\n\x7d);\n\n// PATCH /users/:id - Update a user\nrouter.patch(\x27/:id\x27, (req, res) => \x7b\n  const user = users.find(u => u.id === req.params.id);\n  if (!user) \x7b\n    return res.status(404).json(\x7b error: \x7b code: \x27NOT_FOUND\x27, message: \x27User not found\x27 \x7d \x7d);\n  \x7d\n\n  const \x7b name, role \x7d = req.body;\n  if (name) user.name = name;\n  if (role) user.role = role;\n  user.updated_at = new Date().toISOString();\n\n  res.json(user);\n\x7d);\n\n// DELETE /users/:id - Delete a user\nrouter.delete(\x27/:id\x27, (req, res) => \x7b\n  const index = users.findIndex(u => u.id === req.params.id);\n  if (index === -1) \x7b\n    return res.status(404).json(\x7b error: \x7b code: \x27NOT_FOUND\x27, message: \x27User not found\x27 \x7d \x7d);\n  \x7d\n\n  users.splice(index, 1);\n  res.status(204).send();\n\x7d);\n\nexport default router;\n"

/-- Static text from the repository sources. -/
def gap001Before : String :=
  "## Rate Limiting\n\nAll endpoints are rate limited to **50 requests per minute** per API key. When exceeded, you\x27ll receive a \x60429 Too Many Requests\x60 response.\n\n## Endpoints"

/-- Static text from the repository sources. -/
def gap001After : String :=
  "## Rate Limiting\n\nAll endpoints are rate limited to **100 requests per minute** per API key. When exceeded, you\x27ll receive a \x60429 Too Many Requests\x60 response with a \x60Retry-After\x60 header indicating when you can retry.\n\n## Endpoints"

/-- Static text from the repository sources. -/
def gap002Before : String :=
  "### Webhook Service (New)\n\nThe Webhook Service handles outbound event notifications:\n\n- Event queuing and retry logic\n- Signature verification\n- Delivery status tracking\n\n## Data Flow"

/-- Static text from the repository sources. -/
def gap002After : String :=
  "### Webhook Service (New)\n\nThe Webhook Service handles outbound event notifications:\n\n- Event queuing and retry logic\n- Signature verification\n- Delivery status tracking\n\n### WebSocket Service\n\nThe WebSocket Service provides real-time updates to connected clients:\n\n- Live event streaming for dashboard updates\n- Connection management with automatic reconnection\n- Event types: \x60ANALYZING_CHANGES\x60, \x60COMMITTED\x60, \x60PR_CREATED\x60, \x60PR_MERGED\x60\n\n\x60\x60\x60javascript\n// Connect to WebSocket for real-time updates\nconst ws = new WebSocket(\x27wss://api.acme.io/ws\x27);\nws.onmessage = (event) => \x7b\n  const data = JSON.parse(event.data);\n  console.log(\x27Event:\x27, data.type);\n\x7d;\n\x60\x60\x60\n\n## Data Flow"

/-- Static text from the repository sources. -/
def gap003Before : String :=
  "### Common Errors\n\n| Status | Error | Solution |\n|--------|-------|----------|\n| 400 | Invalid email format | Check the email address is valid |\n| 401 | Unauthorized | Verify your API key is correct |\n| 409 | Email already exists | Use a different email address |\n\n## Fetching User Details"

/-- Static text from the repository sources. -/
def gap003After : String :=
  "### Common Errors\n\n| Status | Code | Message | Solution |\n|--------|------|---------|----------|\n| 400 | \x60VALIDATION_ERROR\x60 | Invalid email format | Check the email address is valid |\n| 401 | \x60UNAUTHORIZED\x60 | Missing or invalid API key | Verify your API key is correct |\n| 409 | \x60CONFLICT\x60 | Email already exists | Use a different email address |\n\nAll errors follow a consistent JSON format:\n\n\x60\x60\x60json\n\x7b\n  \"error\": \x7b\n    \"code\": \"VALIDATION_ERROR\",\n    \"message\": \"Invalid email format\",\n    \"field\": \"email\"\n  \x7d\n\x7d\n\x60\x60\x60\n\n## Fetching User Details"

/-- Static text from the repository sources. -/
def gap004Before : String :=
  "| DELETE | \x60/users/:id\x60 | Delete a user |\n\n#### Example: List Users"

/-- Static text from the repository sources. -/
def gap004After : String :=
  "| DELETE | \x60/users/:id\x60 | Delete a user |\n| POST | \x60/users/batch\x60 | Create multiple users |\n\n#### Batch Operations\n\nCreate up to 100 users in a single request:\n\n\x60\x60\x60bash\ncurl -X POST https://api.acme.io/v1/users/batch \\\n  -H \"Authorization: Bearer YOUR_API_KEY\" \\\n  -H \"Content-Type: application/json\" \\\n  -d \x27\x7b\n    \"users\": [\n      \x7b \"email\": \"user1@example.com\", \"name\": \"User 1\" \x7d,\n      \x7b \"email\": \"user2@example.com\", \"name\": \"User 2\" \x7d\n    ]\n  \x7d\x27\n\x60\x60\x60\n\n#### Example: List Users"

/-- Static text from the repository sources. -/
def gap005Before : String :=
  "## API Versioning\n\nThe API uses URL-based versioning. The current version is \x60v1\x60.\n\n\x60\x60\x60\nhttps://api.acme.io/v1/...\nhttps://api.acme.io/v2/...  (coming soon)\n\x60\x60\x60\n\n**Version Lifecycle:**\n- \x60v1\x60 - Current stable version\n- \x60v2\x60 - Beta (breaking changes)\n- Deprecated versions receive 12 months support"

/-- Static text from the repository sources. -/
def gap005After : String :=
  "## API Versioning\n\nThe API uses URL-based versioning. The current stable version is \x60v1\x60.\n\n\x60\x60\x60\nhttps://api.acme.io/v1/...\n\x60\x60\x60\n\n**Version Lifecycle:**\n- \x60v1\x60 - Current stable version (recommended)\n- \x60v2\x60 - In development, not yet available\n- Deprecated versions are supported for 12 months after deprecation notice"

/-- Default docs repository owner (src/index.ts, environment default). -/
def DOCS_REPO_OWNER : String := "haritha1313"

/-- Default docs repository name (src/index.ts, environment default). -/
def DOCS_REPO : String := "oqoqo-demo-docs"

/-- Default product repository owner (src/index.ts, environment default). -/
def PRODUCT_REPO_OWNER : String := "haritha1313"

/-- Default product repository name (src/index.ts, environment default). -/
def PRODUCT_REPO : String := "oqoqo-demo-product"

/-- Before/after contents for one documentation file inside a Review
(the value type of `Review.files` in src/index.ts). -/
structure FilePair where
  before : String
  after : String
  deriving DecidableEq

/-- The three declared review states of src/index.ts. -/
inductive ReviewStatus where
  | pending
  | approved
  | merged
  deriving DecidableEq, BEq

/-- The `Review` record of src/index.ts.  The `files` object is modelled as
an association list in insertion order. -/
structure Review where
  id : Nat
  prNumber : Option Nat
  prUrl : Option String
  branch : Option String
  files : List (String × FilePair)
  status : ReviewStatus
  createdAt : String
  deriving DecidableEq

/-- The process-lifetime mutable state of src/index.ts: the `pendingReviews`
map (association list in insertion order) and `reviewIdCounter`. -/
structure ServerState where
  pendingReviews : List (Nat × Review)
  reviewIdCounter : Nat
  deriving DecidableEq

/-- State at process start: empty review map, counter 1. -/
def initialState : ServerState := { pendingReviews := [], reviewIdCounter := 1 }

/-- Broadcast events (the `type` tags sent through `broadcast` in
src/index.ts, with their payloads). -/
inductive Event where
  | analyzingChanges (files : List String)
  | noUpdatesNeeded
  | branchCreated (branch : String)
  | prCreated (prNumber : Nat) (prUrl : String)
  | committing (file : String)
  | committed (file : String)
  | deploymentStarted
  | prMerged (prNumber : Nat)
  | prClosed (prNumber : Nat)
  | resetStarted
  | demoReset
  | fixStarted (gapCount : Nat)
  | fileCommitted (file : String)
  | reviewUpdated (reviewId : Nat) (file : String)
  deriving DecidableEq

/-- Remote GitHub operations issued by the handlers of src/index.ts.
`commitOp` stands for `commitFile` (which internally reads the file sha and
then creates or updates the file on the given branch). -/
inductive RemoteOp where
  | getRef
  | createRef (branch : String)
  | commitOp (owner : String) (repo : String) (path : String) (content : String) (branch : String)
  | createPR (branch : String)
  | mergePR (prNumber : Nat)
  | deleteRef (ref : String)
  | closePR (prNumber : Nat)
  | getContent (path : String)
  deriving DecidableEq

/-- JavaScript `obj[k] = v` / `Map.set(k, v)` on an association list:
replace in place if the key exists, otherwise append at the end. -/
def setKey {α β : Type} [DecidableEq α] : List (α × β) → α → β → List (α × β)
  | [], k, v => [(k, v)]
  | (k', v') :: rest, k, v =>
    if k' = k then (k, v) :: rest else (k', v') :: setKey rest k v

/-- JavaScript `obj[k]` / `Map.get(k)` on an association list. -/
def lookupKey {α β : Type} [DecidableEq α] : List (α × β) → α → Option β
  | [], _ => none
  | (k', v') :: rest, k => if k' = k then some v' else lookupKey rest k

/-- The `INITIAL_DOCS` table of src/mappings.ts. -/
def INITIAL_DOCS : List (String × String) :=
  [("docs/getting-started.md", docGettingStartedInitial),
   ("docs/architecture.md", docArchitectureInitial),
   ("docs/how-to-guide.md", docHowToGuideInitial)]

/-- `INITIAL_DOCS[docPath] || ""` from src/index.ts line 143. -/
def lookupInitial (docPath : String) : String :=
  (Option.map Prod.snd (INITIAL_DOCS.find? (fun e => e.1 == docPath))).getD ""

/-- The `UPDATE_MAPPINGS` table of src/mappings.ts: its only key is
`src/routes/users.ts`, mapped to the two updated documentation files. -/
def UPDATE_MAPPINGS (file : String) : Option (List (String × String)) :=
  if file = "src/routes/users.ts" then
    some [("docs/getting-started.md", docGettingStartedUpdated),
          ("docs/how-to-guide.md", docHowToGuideUpdated)]
  else none

/-- Inner loop of `handleMediumAccess` (src/index.ts lines 141-146): write
one `updates[docPath] = ...` entry per mapping pair. -/
def applyEntries : List (String × FilePair) → List (String × String) → List (String × FilePair)
  | acc, [] => acc
  | acc, e :: rest =>
    applyEntries (setKey acc e.1 { before := lookupInitial e.1, after := e.2 }) rest

/-- Outer loop of `handleMediumAccess` (src/index.ts lines 137-147) with an
explicit accumulator. -/
def collectFrom : List (String × FilePair) → List String → List (String × FilePair)
  | acc, [] => acc
  | acc, f :: rest =>
    match UPDATE_MAPPINGS f with
    | none => collectFrom acc rest
    | some es => collectFrom (applyEntries acc es) rest

/-- The `updates` object built by `handleMediumAccess` for a changed-file
list (src/index.ts lines 135-147). -/
def collectUpdates (changedFiles : List String) : List (String × FilePair) :=
  collectFrom [] changedFiles

/-- Documentation paths contributed by one changed file. -/
def mappedKeysOf (f : String) : List String :=
  match UPDATE_MAPPINGS f with
  | none => []
  | some es => es.map Prod.fst

/-- All mapped documentation paths of a changed-file list, with multiplicity
and in input order. -/
def mappedDocPaths : List String → List String
  | [] => []
  | f :: rest => mappedKeysOf f ++ mappedDocPaths rest

/-- Result of one `handleMediumAccess` invocation: the returned value, the
state after it, and the broadcast/remote traces. -/
structure MediumOutcome where
  result : Option Review
  state : ServerState
  events : List Event
  remoteOps : List RemoteOp
  deriving DecidableEq

/-- `handleMediumAccess` (src/index.ts lines 132-219) on its success path.
The branch name, the pull-request number and URL returned by GitHub, and
the current timestamp are parameters. -/
def handleMediumAccess (st : ServerState) (changedFiles : List String)
    (branchName : String) (prNumber : Nat) (prUrl : String) (now : String) : MediumOutcome :=
  let updates := collectUpdates changedFiles
  if updates.isEmpty then
    { result := none, state := st,
      events := [Event.analyzingChanges changedFiles, Event.noUpdatesNeeded],
      remoteOps := [] }
  else
    let review : Review :=
      { id := st.reviewIdCounter, prNumber := some prNumber, prUrl := some prUrl,
        branch := some branchName, files := updates, status := ReviewStatus.pending,
        createdAt := now }
    { result := some review,
      state := { pendingReviews := setKey st.pendingReviews review.id review,
                 reviewIdCounter := st.reviewIdCounter + 1 },
      events := [Event.analyzingChanges changedFiles, Event.branchCreated branchName,
                 Event.prCreated prNumber prUrl],
      remoteOps := RemoteOp.getRef :: RemoteOp.createRef branchName ::
        (updates.map (fun pf => RemoteOp.commitOp DOCS_REPO_OWNER DOCS_REPO pf.1 pf.2.after branchName) ++
         [RemoteOp.createPR branchName]) }

/-- The `gap_type` field values of src/gaps.ts. -/
inductive GapType where
  | STALENESS
  | UNDOCUMENTED
  | OBSOLETE
  deriving DecidableEq

/-- The `severity` field values of src/gaps.ts. -/
inductive GapSeverity where
  | critical
  | high
  | medium
  | low
  deriving DecidableEq

/-- The `suggested_fix` record of src/gaps.ts. -/
structure GapFix where
  file : String
  before : String
  after : String
  deriving DecidableEq

/-- The `DocGap` record of src/gaps.ts. -/
structure DocGap where
  id : String
  gap_type : GapType
  severity : GapSeverity
  doc_file : String
  description : String
  evidence : Option String
  suggested_fix : GapFix
  deriving DecidableEq

/-- First entry of `PREDETERMINED_GAPS` (src/gaps.ts). -/
def gap001 : DocGap :=
  { id := "gap_001", gap_type := GapType.STALENESS, severity := GapSeverity.high,
    doc_file := "docs/getting-started.md",
    description := "Rate limit value differs between documentation and implementation",
    evidence := some "Documentation says 50 req/min but code defines RATE_LIMIT = 100",
    suggested_fix := { file := "docs/getting-started.md", before := gap001Before, after := gap001After } }

/-- Second entry of `PREDETERMINED_GAPS` (src/gaps.ts). -/
def gap002 : DocGap :=
  { id := "gap_002", gap_type := GapType.UNDOCUMENTED, severity := GapSeverity.medium,
    doc_file := "docs/architecture.md",
    description := "WebSocket real-time updates feature is implemented but not documented",
    evidence := some "Found WebSocketServer in src/index.ts with event broadcasting",
    suggested_fix := { file := "docs/architecture.md", before := gap002Before, after := gap002After } }

/-- Third entry of `PREDETERMINED_GAPS` (src/gaps.ts). -/
def gap003 : DocGap :=
  { id := "gap_003", gap_type := GapType.STALENESS, severity := GapSeverity.low,
    doc_file := "docs/how-to-guide.md",
    description := "Error response format in documentation uses old string format instead of new object format",
    evidence := some "Code returns \x7b error: \x7b code, message \x7d \x7d but docs show \x7b error: \"string\" \x7d",
    suggested_fix := { file := "docs/how-to-guide.md", before := gap003Before, after := gap003After } }

/-- Fourth entry of `PREDETERMINED_GAPS` (src/gaps.ts). -/
def gap004 : DocGap :=
  { id := "gap_004", gap_type := GapType.UNDOCUMENTED, severity := GapSeverity.high,
    doc_file := "docs/getting-started.md",
    description := "Batch operations endpoint is available but not documented",
    evidence := some "POST /users/batch endpoint found in routes/users.ts",
    suggested_fix := { file := "docs/getting-started.md", before := gap004Before, after := gap004After } }

/-- Fifth entry of `PREDETERMINED_GAPS` (src/gaps.ts). -/
def gap005 : DocGap :=
  { id := "gap_005", gap_type := GapType.OBSOLETE, severity := GapSeverity.low,
    doc_file := "docs/architecture.md",
    description := "Documentation references deprecated v0 API endpoint format",
    evidence := some "Found reference to /api/v0/ which was removed in latest release",
    suggested_fix := { file := "docs/architecture.md", before := gap005Before, after := gap005After } }

/-- The static `PREDETERMINED_GAPS` list of src/gaps.ts. -/
def PREDETERMINED_GAPS : List DocGap := [gap001, gap002, gap003, gap004, gap005]

/-- Boolean test that `pat` is a leading run of `l`. -/
def leadsWith : List Char → List Char → Bool
  | [], _ => true
  | _ :: _, [] => false
  | p :: ps, c :: cs => if p = c then leadsWith ps cs else false

/-- Core of JavaScript `String.prototype.replace` with a string pattern:
replace the first occurrence of `pat` by `rep`, leave the input unchanged
when `pat` does not occur (an empty `pat` matches at position 0). -/
def replaceFirstAux (pat rep : List Char) : List Char → List Char
  | [] => if pat.isEmpty then rep else []
  | c :: cs =>
    if leadsWith pat (c :: cs) then rep ++ List.drop pat.length (c :: cs)
    else c :: replaceFirstAux pat rep cs

/-- JavaScript `s.replace(pat, rep)` with a string pattern. -/
def replaceFirst (s pat rep : String) : String :=
  String.mk (replaceFirstAux pat.data rep.data s.data)

/-- `applyGapFix` (src/gaps.ts lines 200-202): replace the gap's `before`
text by its `after` text in the current content. -/
def applyGapFix (gap : DocGap) (currentContent : String) : String :=
  replaceFirst currentContent gap.suggested_fix.before gap.suggested_fix.after

/-- Boolean occurrence test: `pat` occurs as a contiguous run of `l`. -/
def occursAux (pat : List Char) : List Char → Bool
  | [] => pat.isEmpty
  | c :: cs => leadsWith pat (c :: cs) || occursAux pat cs

/-- Membership of a string id in the static gap list. -/
def isKnownGapId (x : String) : Bool :=
  PREDETERMINED_GAPS.any (fun g => g.id == x)

/-- `PREDETERMINED_GAPS.filter(g => gapIds.includes(g.id))` from the
fix-gaps handler (src/index.ts line 733). -/
def selectedGapsOf (gapIds : List String) : List DocGap :=
  PREDETERMINED_GAPS.filter (fun g => gapIds.contains g.id)

/-- One entry of the `fileUpdates` object of the fix-gaps handler. -/
structure FileGroup where
  gaps : List DocGap
  content : String
  deriving DecidableEq

/-- Grouping loop of the fix-gaps handler (src/index.ts lines 743-759):
fetch each target file's content the first time its path is seen; when the
fetch fails the gap is skipped (`continue`) and no entry is created; the
`getContent` remote call is recorded in the trace. -/
def groupGaps (fetch : String → Option String) :
    List DocGap → List (String × FileGroup) → List RemoteOp →
    List (String × FileGroup) × List RemoteOp
  | [], acc, ops => (acc, ops)
  | g :: rest, acc, ops =>
    match lookupKey acc g.suggested_fix.file with
    | some grp =>
      groupGaps fetch rest
        (setKey acc g.suggested_fix.file { grp with gaps := grp.gaps ++ [g] }) ops
    | none =>
      match fetch g.suggested_fix.file with
      | none => groupGaps fetch rest acc (ops ++ [RemoteOp.getContent g.suggested_fix.file])
      | some c =>
        groupGaps fetch rest (acc ++ [(g.suggested_fix.file, { gaps := [g], content := c })])
          (ops ++ [RemoteOp.getContent g.suggested_fix.file])

/-- Apply loop of the fix-gaps handler (src/index.ts lines 762-771): fold
the gaps of one file over its fetched content with first-occurrence
replacement. -/
def applyGroup (grp : FileGroup) : String :=
  grp.gaps.foldl (fun c g => replaceFirst c g.suggested_fix.before g.suggested_fix.after) grp.content

/-- Response of the fix-gaps handler: a 4xx client error with its message,
or the success payload (modelled as the stored Review). -/
inductive FixResult where
  | clientError (code : Nat) (msg : String)
  | success (r : Review)
  deriving DecidableEq

/-- Constructor test for `FixResult`. -/
def FixResult.isSuccess : FixResult → Bool
  | FixResult.success _ => true
  | _ => false

/-- Result of one fix-gaps request. -/
structure FixOutcome where
  response : FixResult
  state : ServerState
  events : List Event
  remoteOps : List RemoteOp
  deriving DecidableEq

/-- The `POST /fix-gaps` handler (src/index.ts lines 725-863) on the path
where branch creation, commits and the pull request succeed.  `gapIds` is
`none` when the body field is missing or not an array.  `fetch` gives the
current remote content of a documentation file, `none` when it cannot be
fetched. -/
def fixGaps (st : ServerState) (gapIds : Option (List String)) (fetch : String → Option String)
    (branchName : String) (prNumber : Nat) (prUrl : String) (now : String) : FixOutcome :=
  match gapIds with
  | none =>
    { response := FixResult.clientError 400 "gapIds array required",
      state := st, events := [], remoteOps := [] }
  | some ids =>
    if ids.isEmpty then
      { response := FixResult.clientError 400 "gapIds array required",
        state := st, events := [], remoteOps := [] }
    else
      let selected := selectedGapsOf ids
      if selected.isEmpty then
        { response := FixResult.clientError 400 "No valid gaps found for provided IDs",
          state := st, events := [], remoteOps := [] }
      else
        let gr := groupGaps fetch selected [] []
        let updated := gr.1.map (fun pg => (pg.1, applyGroup pg.2))
        let review : Review :=
          { id := st.reviewIdCounter, prNumber := some prNumber, prUrl := some prUrl,
            branch := some branchName,
            files := updated.map (fun pc => (pc.1, { before := "", after := pc.2 })),
            status := ReviewStatus.pending, createdAt := now }
        { response := FixResult.success review,
          state := { pendingReviews := setKey st.pendingReviews review.id review,
                     reviewIdCounter := st.reviewIdCounter + 1 },
          events := Event.fixStarted selected.length :: Event.branchCreated branchName ::
            (updated.map (fun pc => Event.fileCommitted pc.1) ++ [Event.prCreated prNumber prUrl]),
          remoteOps := gr.2 ++ (RemoteOp.getRef :: RemoteOp.createRef branchName ::
            (updated.map (fun pc => RemoteOp.commitOp DOCS_REPO_OWNER DOCS_REPO pc.1 pc.2 branchName) ++
             [RemoteOp.createPR branchName])) }

/-- Response of the approve handler: a 4xx/5xx status code or success. -/
inductive ApproveResult where
  | err (code : Nat)
  | ok
  deriving DecidableEq

/-- Result of one approve request. -/
structure ApproveOutcome where
  response : ApproveResult
  state : ServerState
  events : List Event
  remoteOps : List RemoteOp
  deriving DecidableEq

/-- The `POST /reviews/:id/approve` handler (src/index.ts lines 246-285) on
the path where the remote merge succeeds.  Branch deletion is attempted and
its failure swallowed, so the `deleteRef` call is always in the trace; a
missing branch name renders as the string `undefined` in the template
literal `heads/(branch)`. -/
def approve (st : ServerState) (rid : Nat) : ApproveOutcome :=
  match lookupKey st.pendingReviews rid with
  | none => { response := ApproveResult.err 404, state := st, events := [], remoteOps := [] }
  | some r =>
    match r.prNumber with
    | none => { response := ApproveResult.err 400, state := st, events := [], remoteOps := [] }
    | some pn =>
      { response := ApproveResult.ok,
        state := { pendingReviews := setKey st.pendingReviews rid { r with status := ReviewStatus.merged },
                   reviewIdCounter := st.reviewIdCounter },
        events := [Event.prMerged pn, Event.deploymentStarted],
        remoteOps := [RemoteOp.mergePR pn, RemoteOp.deleteRef ("heads/" ++ r.branch.getD "undefined")] }

/-- Result of one reset request. -/
structure ResetOutcome where
  state : ServerState
  events : List Event
  remoteOps : List RemoteOp
  deriving DecidableEq

/-- The `POST /reset` handler (src/index.ts lines 376-421) on its success
path.  `openPRs` is the list of currently open pull-request numbers
returned by the remote service.  It closes them, commits every
documentation file back to its `INITIAL_DOCS` content on main, commits the
product code file back to `DEMO_CODE_BEFORE`, clears the review map and
resets the id counter to 1. -/
def reset (_st : ServerState) (openPRs : List Nat) : ResetOutcome :=
  { state := { pendingReviews := [], reviewIdCounter := 1 },
    events := Event.resetStarted :: (openPRs.map Event.prClosed ++ [Event.demoReset]),
    remoteOps := openPRs.map RemoteOp.closePR ++
      (INITIAL_DOCS.map (fun pc => RemoteOp.commitOp DOCS_REPO_OWNER DOCS_REPO pc.1 pc.2 "main") ++
       [RemoteOp.commitOp PRODUCT_REPO_OWNER PRODUCT_REPO "src/routes/users.ts" DEMO_CODE_BEFORE "main"]) }

/-- The `GET /reviews` handler (src/index.ts lines 233-236): pending
reviews only. -/
def listPending (st : ServerState) : List Review :=
  (st.pendingReviews.map Prod.snd).filter (fun r => r.status == ReviewStatus.pending)

/-- The `stepRanges` table of `getPercent` (src/index.ts lines 461-466). -/
def stepRanges (step : Nat) : Option (ℚ × ℚ) :=
  if step = 1 then some (0, 15)
  else if step = 2 then some (15, 35)
  else if step = 3 then some (35, 60)
  else if step = 4 then some (60, 100)
  else none

/-- JavaScript `Math.round`: round half toward positive infinity. -/
def jsRound (q : ℚ) : Int := ⌊q + 1 / 2⌋

/-- `getPercent` of the streaming analyzer (src/index.ts lines 459-469):
interpolate the sub-progress into the phase's percentage range, with the
`|| [0, 100]` fallback for unknown phases, and round. -/
def getPercent (step : Nat) (sub : ℚ) : Int :=
  let r := (stepRanges step).getD (0, 100)
  jsRound (r.1 + (r.2 - r.1) * sub)

/-- Phase range start as stated by the specification (reference definition
for the refinement theorem, written from the spec's words). -/
def specPhaseStart (n : Nat) : ℚ :=
  if n = 1 then 0 else if n = 2 then 15 else if n = 3 then 35 else 60

/-- Phase range end as stated by the specification (reference definition
for the refinement theorem, written from the spec's words). -/
def specPhaseEnd (n : Nat) : ℚ :=
  if n = 1 then 15 else if n = 2 then 35 else if n = 3 then 60 else 100

/-- Decision of the `requireAdmin` middleware. -/
inductive AuthDecision where
  | allow
  | reject (code : Nat)
  deriving DecidableEq

/-- `requireAdmin` (src/index.ts lines 29-39).  `authHeader` is the
Authorization header, `none` when absent; JavaScript's `!authHeader` is
also true for the empty string, hence the extra test. -/
def requireAdmin (secret : String) (authHeader : Option String) : AuthDecision :=
  if secret = "" then AuthDecision.allow
  else
    match authHeader with
    | none => AuthDecision.reject 401
    | some h =>
      if h = "" then AuthDecision.reject 401
      else if h = "Bearer " ++ secret then AuthDecision.allow
      else AuthDecision.reject 401

/-- `ADMIN_SECRET = process.env.ADMIN_SECRET || ''` (src/index.ts line 24):
an unset or empty environment variable yields the empty secret. -/
def adminSecretOf (env : Option String) : String :=
  match env with
  | none => ""
  | some s => if s = "" then "" else s

/-- One review-creating or state-changing request in a process lifetime.
Each carries the externally supplied results its handler needs. -/
inductive Op where
  | opMedium (files : List String) (branch : String) (prn : Nat) (url : String) (now : String)
  | opFixGaps (gapIds : Option (List String)) (fetch : String → Option String)
      (branch : String) (prn : Nat) (url : String) (now : String)
  | opApprove (rid : Nat)
  | opReset (openPRs : List Nat)

/-- Constructor test for the reset operation. -/
def Op.isReset : Op → Bool
  | Op.opReset _ => true
  | _ => false

/-- State transition of one request, together with the review ids it
assigned. -/
def step (st : ServerState) : Op → ServerState × List Nat
  | Op.opMedium files b n u t =>
    let out := handleMediumAccess st files b n u t
    (out.state, match out.result with | some r => [r.id] | none => [])
  | Op.opFixGaps g f b n u t =>
    let out := fixGaps st g f b n u t
    (out.state, match out.response with | FixResult.success r => [r.id] | _ => [])
  | Op.opApprove rid => ((approve st rid).state, [])
  | Op.opReset prs => ((reset st prs).state, [])

/-- Run a sequence of requests, collecting every assigned review id in
order. -/
def runOps : ServerState → List Op → ServerState × List Nat
  | st, [] => (st, [])
  | st, op :: ops =>
    ((runOps (step st op).1 ops).1, (step st op).2 ++ (runOps (step st op).1 ops).2)

/-- Review ids assigned over a process lifetime that starts fresh and
serves the given requests. -/
def assignedIds (ops : List Op) : List Nat := (runOps initialState ops).2

/-- A small concrete gap used to exercise `applyGapFix`. -/
def wgap : DocGap :=
  { id := "w", gap_type := GapType.STALENESS, severity := GapSeverity.low,
    doc_file := "d", description := "", evidence := none,
    suggested_fix := { file := "d", before := "xy", after := "z" } }

/-- A concrete stored review without an associated pull request. -/
def sampleNoPRReview : Review :=
  { id := 1, prNumber := none, prUrl := none, branch := none,
    files := [("docs/getting-started.md", { before := "a", after := "b" })],
    status := ReviewStatus.pending, createdAt := "t" }

/-- A concrete store holding `sampleNoPRReview` under id 1. -/
def sampleStore : ServerState :=
  { pendingReviews := [(1, sampleNoPRReview)], reviewIdCounter := 2 }

/-- A concrete content oracle that can fetch `docs/architecture.md` and
nothing else. -/
def cxFetch : String → Option String :=
  fun p => if p = "docs/architecture.md" then some "sample content" else none

/-- A request sequence containing a reset between two review creations. -/
def cexOps : List Op :=
  [Op.opMedium ["src/routes/users.ts"] "docs-update-1" 11 "u1" "t1",
   Op.opReset [],
   Op.opMedium ["src/routes/users.ts"] "docs-update-2" 12 "u2" "t2"]

/-- A reset-free request sequence creating two reviews. -/
def strictOps : List Op :=
  [Op.opMedium ["src/routes/users.ts"] "docs-update-1" 11 "u1" "t1",
   Op.opFixGaps (some ["gap_001"]) (fun _ => none) "docs-fix-1" 12 "u2" "t2"]

lemma setKey_map_fst_mem {α β : Type} [DecidableEq α] (l : List (α × β)) (k : α) (v : β)
    (p : α) : p ∈ (setKey l k v).map Prod.fst ↔ p ∈ l.map Prod.fst ∨ p = k := by
  induction l with
  | nil => simp [setKey]
  | cons hd tl ih =>
    obtain ⟨k', v'⟩ := hd
    by_cases hk : k' = k
    · subst hk
      simp [setKey]
      tauto
    · simp [setKey, hk, ih]
      tauto

lemma setKey_map_fst_nodup {α β : Type} [DecidableEq α] (l : List (α × β)) (k : α) (v : β)
    (h : (l.map Prod.fst).Nodup) : ((setKey l k v).map Prod.fst).Nodup := by
  induction l with
  | nil => simp [setKey]
  | cons hd tl ih =>
    obtain ⟨k', v'⟩ := hd
    simp only [List.map_cons, List.nodup_cons] at h
    by_cases hk : k' = k
    · subst hk
      simpa [setKey] using h
    · simp only [setKey, if_neg hk, List.map_cons, List.nodup_cons]
      refine ⟨?_, ih h.2⟩
      intro hmem
      rw [setKey_map_fst_mem] at hmem
      rcases hmem with h1 | h1
      · exact h.1 h1
      · exact hk h1

lemma mem_setKey {α β : Type} [DecidableEq α] (l : List (α × β)) (k : α) (v : β) :
    ∀ e ∈ setKey l k v, e = (k, v) ∨ e ∈ l := by
  induction l with
  | nil =>
    intro e he
    simp [setKey] at he
    exact Or.inl he
  | cons hd tl ih =>
    obtain ⟨k', v'⟩ := hd
    intro e he
    by_cases hk : k' = k
    · subst hk
      rcases (List.mem_cons).1 (by simpa [setKey] using he) with h1 | h1
      · exact Or.inl h1
      · exact Or.inr (List.mem_cons_of_mem _ h1)
    · rcases (List.mem_cons).1 (by simpa [setKey, hk] using he) with h1 | h1
      · exact Or.inr (h1 ▸ List.mem_cons_self _ _)
      · rcases ih e h1 with h2 | h2
        · exact Or.inl h2
        · exact Or.inr (List.mem_cons_of_mem _ h2)

lemma lookupKey_mem {α β : Type} [DecidableEq α] (l : List (α × β)) (k : α) (v : β)
    (h : lookupKey l k = some v) : (k, v) ∈ l := by
  induction l with
  | nil => simp [lookupKey] at h
  | cons hd tl ih =>
    obtain ⟨k', v'⟩ := hd
    simp only [lookupKey] at h
    split at h
    next heq =>
      injection h with h2
      subst h2
      subst heq
      exact List.mem_cons_self _ _
    next hne =>
      exact List.mem_cons_of_mem _ (ih h)

lemma applyEntries_map_fst_mem (es : List (String × String)) (acc : List (String × FilePair))
    (p : String) :
    p ∈ (applyEntries acc es).map Prod.fst ↔ p ∈ acc.map Prod.fst ∨ p ∈ es.map Prod.fst := by
  induction es generalizing acc with
  | nil => simp [applyEntries]
  | cons e rest ih =>
    simp only [applyEntries]
    rw [ih, setKey_map_fst_mem]
    simp only [List.map_cons, List.mem_cons]
    tauto

lemma applyEntries_map_fst_nodup (es : List (String × String)) (acc : List (String × FilePair))
    (h : (acc.map Prod.fst).Nodup) : ((applyEntries acc es).map Prod.fst).Nodup := by
  induction es generalizing acc with
  | nil => simpa [applyEntries]
  | cons e rest ih =>
    simp only [applyEntries]
    exact ih _ (setKey_map_fst_nodup _ _ _ h)

lemma collectFrom_map_fst_mem (files : List String) (acc : List (String × FilePair))
    (p : String) :
    p ∈ (collectFrom acc files).map Prod.fst ↔ p ∈ acc.map Prod.fst ∨ p ∈ mappedDocPaths files := by
  induction files generalizing acc with
  | nil => simp [collectFrom, mappedDocPaths]
  | cons f rest ih =>
    simp only [collectFrom, mappedDocPaths, mappedKeysOf]
    cases hm : UPDATE_MAPPINGS f with
    | none =>
      rw [ih]
      simp
    | some es =>
      rw [ih, applyEntries_map_fst_mem]
      simp only [List.mem_append]
      tauto

lemma collectFrom_map_fst_nodup (files : List String) (acc : List (String × FilePair))
    (h : (acc.map Prod.fst).Nodup) : ((collectFrom acc files).map Prod.fst).Nodup := by
  induction files generalizing acc with
  | nil => simpa [collectFrom]
  | cons f rest ih =>
    simp only [collectFrom]
    cases hm : UPDATE_MAPPINGS f with
    | none => exact ih _ h
    | some es => exact ih _ (applyEntries_map_fst_nodup _ _ h)

lemma collectFrom_unmapped (files : List String) (acc : List (String × FilePair))
    (h : ∀ f ∈ files, UPDATE_MAPPINGS f = none) : collectFrom acc files = acc := by
  induction files with
  | nil => rfl
  | cons f rest ih =>
    have hf := h f (List.mem_cons_self _ _)
    simp only [collectFrom, hf]
    exact ih fun g hg => h g (List.mem_cons_of_mem _ hg)

lemma mem_mappedDocPaths_of (files : List String) (f : String) (p : String)
    (hf : f ∈ files) (hp : p ∈ mappedKeysOf f) : p ∈ mappedDocPaths files := by
  induction files with
  | nil => cases hf
  | cons g rest ih =>
    rcases (List.mem_cons).1 hf with h1 | h1
    · subst h1
      exact (List.mem_append).2 (Or.inl hp)
    · exact (List.mem_append).2 (Or.inr (ih h1))

/-- C1: for every changed-file list containing at least one path mapped in
`UPDATE_MAPPINGS`, `handleMediumAccess` creates exactly one Review —
inserted into the store under a fresh id with the counter bumped once —
whose `files` mapping has exactly one entry per distinct mapped
documentation path across all input files, with status `pending` and a
pull-request number populated. -/
theorem handleMediumAccess_creates_one_review (st : ServerState) (files : List String)
    (b : String) (n : Nat) (u t : String)
    (h : ∃ f ∈ files, (UPDATE_MAPPINGS f).isSome) :
    ∃ r : Review,
      (handleMediumAccess st files b n u t).result = some r ∧
      (handleMediumAccess st files b n u t).state.pendingReviews = setKey st.pendingReviews r.id r ∧
      (handleMediumAccess st files b n u t).state.reviewIdCounter = st.reviewIdCounter + 1 ∧
      r.status = ReviewStatus.pending ∧
      r.prNumber = some n ∧
      (r.files.map Prod.fst).Nodup ∧
      (∀ p, p ∈ r.files.map Prod.fst ↔ p ∈ mappedDocPaths files) := by
  obtain ⟨f, hf, hsome⟩ := h
  have hfu : f = "src/routes/users.ts" := by
    by_contra hne
    unfold UPDATE_MAPPINGS at hsome
    rw [if_neg hne] at hsome
    simp at hsome
  have hkey : ("docs/getting-started.md" : String) ∈ mappedKeysOf f := by
    subst hfu
    simp [mappedKeysOf, UPDATE_MAPPINGS]
  have hmem : ("docs/getting-started.md" : String) ∈ (collectUpdates files).map Prod.fst := by
    rw [collectUpdates, collectFrom_map_fst_mem]
    exact Or.inr (mem_mappedDocPaths_of files f _ hf hkey)
  have hcond : ¬((collectUpdates files).isEmpty = true) := by
    cases hc : collectUpdates files with
    | nil => rw [hc] at hmem; simp at hmem
    | cons a l => simp
  simp only [handleMediumAccess]
  rw [if_neg hcond]
  refine ⟨_, rfl, rfl, rfl, rfl, rfl, ?_, ?_⟩
  · exact collectFrom_map_fst_nodup files [] (by simp)
  · intro p
    show p ∈ (collectUpdates files).map Prod.fst ↔ p ∈ mappedDocPaths files
    rw [collectUpdates, collectFrom_map_fst_mem]
    simp

/-- Witness for C1 at the scenario input: a batch containing
`src/routes/users.ts`. -/
theorem handleMediumAccess_creates_one_review_witness :
    (∃ f ∈ ["src/routes/users.ts"], (UPDATE_MAPPINGS f).isSome) ∧
    (∃ r : Review,
      (handleMediumAccess initialState ["src/routes/users.ts"] "docs-update-1" 1 "url" "now").result = some r ∧
      (handleMediumAccess initialState ["src/routes/users.ts"] "docs-update-1" 1 "url" "now").state.pendingReviews = setKey initialState.pendingReviews r.id r ∧
      (handleMediumAccess initialState ["src/routes/users.ts"] "docs-update-1" 1 "url" "now").state.reviewIdCounter = initialState.reviewIdCounter + 1 ∧
      r.status = ReviewStatus.pending ∧
      r.prNumber = some 1 ∧
      (r.files.map Prod.fst).Nodup ∧
      (∀ p, p ∈ r.files.map Prod.fst ↔ p ∈ mappedDocPaths ["src/routes/users.ts"])) := by
  have hyp : ∃ f ∈ ["src/routes/users.ts"], (UPDATE_MAPPINGS f).isSome :=
    ⟨"src/routes/users.ts", List.mem_cons_self _ _, rfl⟩
  exact ⟨hyp, handleMediumAccess_creates_one_review initialState _ "docs-update-1" 1 "url" "now" hyp⟩

/-- C2: for every changed-file list in which no path is mapped in
`UPDATE_MAPPINGS`, `handleMediumAccess` broadcasts `NO_UPDATES_NEEDED`,
creates no Review, performs no remote operation and returns nothing. -/
theorem handleMediumAccess_no_mapped_paths (st : ServerState) (files : List String)
    (b : String) (n : Nat) (u t : String)
    (h : ∀ f ∈ files, UPDATE_MAPPINGS f = none) :
    (handleMediumAccess st files b n u t).result = none ∧
    (handleMediumAccess st files b n u t).state = st ∧
    (handleMediumAccess st files b n u t).events =
      [Event.analyzingChanges files, Event.noUpdatesNeeded] ∧
    (handleMediumAccess st files b n u t).remoteOps = [] := by
  have hc : collectUpdates files = [] := collectFrom_unmapped files [] h
  have hcond : (collectUpdates files).isEmpty = true := by rw [hc]; rfl
  simp only [handleMediumAccess]
  rw [if_pos hcond]
  exact ⟨rfl, rfl, rfl, rfl⟩

/-- Witness for C2 at a concrete unmapped changed-file list. -/
theorem handleMediumAccess_no_mapped_paths_witness :
    (∀ f ∈ ["README.md"], UPDATE_MAPPINGS f = none) ∧
    ((handleMediumAccess initialState ["README.md"] "b" 1 "u" "t").result = none ∧
     (handleMediumAccess initialState ["README.md"] "b" 1 "u" "t").state = initialState ∧
     (handleMediumAccess initialState ["README.md"] "b" 1 "u" "t").events =
       [Event.analyzingChanges ["README.md"], Event.noUpdatesNeeded] ∧
     (handleMediumAccess initialState ["README.md"] "b" 1 "u" "t").remoteOps = []) := by
  have hyp : ∀ f ∈ ["README.md"], UPDATE_MAPPINGS f = none := by
    intro f hf
    rw [List.mem_singleton] at hf
    subst hf
    rfl
  exact ⟨hyp, handleMediumAccess_no_mapped_paths initialState _ "b" 1 "u" "t" hyp⟩

lemma leadsWith_iff (pat : List Char) : ∀ l : List Char,
    leadsWith pat l = true ↔ ∃ post, l = pat ++ post := by
  induction pat with
  | nil =>
    intro l
    simp [leadsWith]
  | cons p ps ih =>
    intro l
    cases l with
    | nil => simp [leadsWith]
    | cons c cs =>
      simp only [leadsWith]
      by_cases hpc : p = c
      · subst hpc
        rw [if_pos rfl, ih]
        simp [List.cons_append]
      · rw [if_neg hpc]
        simp only [List.cons_append]
        constructor
        · intro h
          exact absurd h Bool.false_ne_true
        · rintro ⟨post, hp⟩
          injection hp with h1 h2
          exact absurd h1.symm hpc

lemma replaceFirstAux_of_not_occurs (pat rep : List Char) : ∀ l : List Char,
    occursAux pat l = false → replaceFirstAux pat rep l = l := by
  intro l
  induction l with
  | nil =>
    intro h
    simp only [occursAux] at h
    simp [replaceFirstAux, h]
  | cons c cs ih =>
    intro h
    simp only [occursAux, Bool.or_eq_false_iff] at h
    have h1 : ¬(leadsWith pat (c :: cs) = true) := by simp [h.1]
    simp only [replaceFirstAux]
    rw [if_neg h1, ih h.2]

lemma replaceFirstAux_first_occurrence (pat rep : List Char) : ∀ l : List Char,
    occursAux pat l = true →
    ∃ pre post, l = pre ++ pat ++ post ∧
      replaceFirstAux pat rep l = pre ++ rep ++ post ∧
      ∀ pre2 post2, l = pre2 ++ pat ++ post2 → pre.length ≤ pre2.length := by
  intro l
  induction l with
  | nil =>
    intro h
    simp only [occursAux, List.isEmpty_iff] at h
    subst h
    exact ⟨[], [], rfl, by simp [replaceFirstAux], fun pre2 post2 _ => Nat.zero_le _⟩
  | cons c cs ih =>
    intro h
    cases hb : leadsWith pat (c :: cs) with
    | true =>
      obtain ⟨post, hpost⟩ := (leadsWith_iff pat (c :: cs)).1 hb
      refine ⟨[], post, by simpa using hpost, ?_, fun pre2 post2 _ => Nat.zero_le _⟩
      have hdrop : List.drop pat.length (c :: cs) = post := by
        rw [hpost]
        exact List.drop_left pat post
      simp only [replaceFirstAux]
      rw [if_pos hb, hdrop]
      simp
    | false =>
      have hcs : occursAux pat cs = true := by
        simp only [occursAux, hb, Bool.false_or] at h
        exact h
      obtain ⟨pre, post, hsplit, hrepl, hmin⟩ := ih hcs
      refine ⟨c :: pre, post, by simp [hsplit], ?_, ?_⟩
      · have h1 : ¬(leadsWith pat (c :: cs) = true) := by simp [hb]
        simp only [replaceFirstAux]
        rw [if_neg h1, hrepl]
        simp
      · intro pre2 post2 h2
        cases pre2 with
        | nil =>
          exfalso
          have : leadsWith pat (c :: cs) = true :=
            (leadsWith_iff pat (c :: cs)).2 ⟨post2, by simpa using h2⟩
          rw [hb] at this
          cases this
        | cons d dtl =>
          have hd : c = d ∧ cs = dtl ++ pat ++ post2 := by
            simpa [List.cons_append] using h2
          have := hmin dtl post2 hd.2
          simp only [List.length_cons]
          omega

/-- C7: applying a gap's fix replaces the first occurrence of the literal
`before` text with the `after` text, and is the identity when the `before`
text does not occur (a total no-op, no error). -/
theorem applyGapFix_first_occurrence (g : DocGap) (s : String) :
    (occursAux g.suggested_fix.before.data s.data = false → applyGapFix g s = s) ∧
    (occursAux g.suggested_fix.before.data s.data = true →
      ∃ pre post,
        s.data = pre ++ g.suggested_fix.before.data ++ post ∧
        (applyGapFix g s).data = pre ++ g.suggested_fix.after.data ++ post ∧
        ∀ pre2 post2, s.data = pre2 ++ g.suggested_fix.before.data ++ post2 →
          pre.length ≤ pre2.length) := by
  constructor
  · intro h
    show String.mk (replaceFirstAux g.suggested_fix.before.data g.suggested_fix.after.data s.data) = s
    rw [replaceFirstAux_of_not_occurs _ _ _ h]
  · intro h
    obtain ⟨pre, post, hsplit, hrepl, hmin⟩ :=
      replaceFirstAux_first_occurrence g.suggested_fix.before.data g.suggested_fix.after.data s.data h
    exact ⟨pre, post, hsplit, hrepl, hmin⟩

/-- Witness for C7: a no-occurrence input, and an input where the first of
two occurrences is replaced. -/
theorem applyGapFix_first_occurrence_witness :
    (occursAux wgap.suggested_fix.before.data ("hello" : String).data = false ∧
      applyGapFix wgap "hello" = "hello") ∧
    (occursAux wgap.suggested_fix.before.data ("axyb" : String).data = true ∧
      ∃ pre post,
        ("axyb" : String).data = pre ++ wgap.suggested_fix.before.data ++ post ∧
        (applyGapFix wgap "axyb").data = pre ++ wgap.suggested_fix.after.data ++ post ∧
        ∀ pre2 post2, ("axyb" : String).data = pre2 ++ wgap.suggested_fix.before.data ++ post2 →
          pre.length ≤ pre2.length) :=
  ⟨⟨rfl, (applyGapFix_first_occurrence wgap "hello").1 rfl⟩,
   ⟨rfl, (applyGapFix_first_occurrence wgap "axyb").2 rfl⟩⟩

/-- C6: approving a stored review that has no associated pull-request
number fails with a client error (400) and leaves the whole store — hence
the review's status — unchanged, with no remote merge or branch deletion
attempted. -/
theorem approve_without_pr_fails (st : ServerState) (rid : Nat) (r : Review)
    (h1 : lookupKey st.pendingReviews rid = some r) (h2 : r.prNumber = none) :
    (approve st rid).response = ApproveResult.err 400 ∧
    (approve st rid).state = st ∧
    (approve st rid).events = [] ∧
    (approve st rid).remoteOps = [] := by
  simp only [approve, h1, h2]
  exact ⟨trivial, trivial, trivial, trivial⟩

/-- Witness for C6: a concrete store holding a review without a pull
request. -/
theorem approve_without_pr_fails_witness :
    (lookupKey sampleStore.pendingReviews 1 = some sampleNoPRReview ∧
      sampleNoPRReview.prNumber = none) ∧
    ((approve sampleStore 1).response = ApproveResult.err 400 ∧
     (approve sampleStore 1).state = sampleStore ∧
     (approve sampleStore 1).events = [] ∧
     (approve sampleStore 1).remoteOps = []) :=
  ⟨⟨rfl, rfl⟩, approve_without_pr_fails sampleStore 1 sampleNoPRReview rfl rfl⟩

/-- C8: after a successful reset the Review Store is empty, so listing
pending reviews returns the empty collection, and the trace contains a
commit of every documentation file back to its `INITIAL_DOCS` content on
main followed by a commit of the demo code file back to
`DEMO_CODE_BEFORE`. -/
theorem reset_clears_and_restores (st : ServerState) (openPRs : List Nat) :
    listPending (reset st openPRs).state = [] ∧
    List.Sublist
      (INITIAL_DOCS.map (fun pc => RemoteOp.commitOp DOCS_REPO_OWNER DOCS_REPO pc.1 pc.2 "main") ++
        [RemoteOp.commitOp PRODUCT_REPO_OWNER PRODUCT_REPO "src/routes/users.ts" DEMO_CODE_BEFORE "main"])
      (reset st openPRs).remoteOps :=
  ⟨rfl, List.sublist_append_right _ _⟩

/-- C10: the admin guard rejects with 401 exactly when the configured
secret is non-empty and the Authorization header is absent or differs from
`Bearer (secret)`; with the default (unset or empty) secret every request
is allowed. -/
theorem requireAdmin_rejects_iff :
    (∀ (secret : String) (hdr : Option String),
      requireAdmin secret hdr = AuthDecision.reject 401 ↔
        secret ≠ "" ∧ hdr ≠ some ("Bearer " ++ secret)) ∧
    adminSecretOf none = "" ∧
    (∀ hdr, requireAdmin (adminSecretOf none) hdr = AuthDecision.allow) := by
  refine ⟨?_, rfl, fun hdr => rfl⟩
  intro secret hdr
  by_cases hs : secret = ""
  · subst hs
    simp [requireAdmin]
  · have hbearer : ("Bearer " ++ secret : String) ≠ "" := by
      intro hcontra
      have hlen := congrArg String.length hcontra
      rw [String.length_append] at hlen
      have h7 : ("Bearer " : String).length = 7 := rfl
      have h0 : ("" : String).length = 0 := rfl
      rw [h7, h0] at hlen
      omega
    cases hdr with
    | none => simp [requireAdmin, hs]
    | some h =>
      by_cases hh : h = ""
      · subst hh
        simp only [requireAdmin, if_neg hs, if_pos rfl]
        simp [hs]
        intro hcontra
        exact hbearer hcontra.symm
      · by_cases hb : h = "Bearer " ++ secret
        · subst hb
          simp [requireAdmin, hs, hh]
        · simp [requireAdmin, hs, hh, hb]

/-- C9: for every phase number 1-4 and sub-progress fraction in [0,1], the
streaming analyzer's percentage is the phase range start plus the fraction
of the range width, rounded (`Math.round`, half up) — with the ranges
1:[0,15], 2:[15,35], 3:[35,60], 4:[60,100] exactly as the specification
states them. -/
theorem getPercent_schedule (n : Nat) (s : ℚ)
    (h1 : 1 ≤ n) (h2 : n ≤ 4) (h3 : 0 ≤ s) (h4 : s ≤ 1) :
    getPercent n s = jsRound (specPhaseStart n + s * (specPhaseEnd n - specPhaseStart n)) := by
  interval_cases n <;>
    · simp [getPercent, stepRanges, specPhaseStart, specPhaseEnd, jsRound]
      congr 1
      ring

/-- Witness for C9 at phase 3 with sub-progress 0. -/
theorem getPercent_schedule_witness :
    ((1 : Nat) ≤ 3 ∧ (3 : Nat) ≤ 4 ∧ (0 : ℚ) ≤ 0 ∧ (0 : ℚ) ≤ 1) ∧
    getPercent 3 0 = jsRound (specPhaseStart 3 + 0 * (specPhaseEnd 3 - specPhaseStart 3)) :=
  ⟨⟨by decide, by decide, le_refl 0, zero_le_one⟩,
   getPercent_schedule 3 0 (by decide) (by decide) (le_refl 0) zero_le_one⟩

/-- C4: gap ids absent from the static gap list are silently dropped from
the batch (filtering the request ids down to known ids selects the same
batch), and a missing, empty, or entirely-unknown id list fails with a
client error (400) before any remote side effect, leaving the state
unchanged. -/
theorem fixGaps_drops_unknown_and_rejects_empty
    (st : ServerState) (fetch : String → Option String) (b : String) (n : Nat) (u t : String)
    (gapIds : Option (List String)) :
    (∀ ids : List String, selectedGapsOf ids = selectedGapsOf (ids.filter isKnownGapId)) ∧
    ((gapIds = none ∨ gapIds = some [] ∨ ∃ ids, gapIds = some ids ∧ selectedGapsOf ids = []) →
      ∃ msg, (fixGaps st gapIds fetch b n u t).response = FixResult.clientError 400 msg ∧
        (fixGaps st gapIds fetch b n u t).remoteOps = [] ∧
        (fixGaps st gapIds fetch b n u t).state = st) := by
  constructor
  · intro ids
    unfold selectedGapsOf
    apply List.filter_congr
    intro g hg
    have hknown : isKnownGapId g.id = true := by
      unfold isKnownGapId
      rw [List.any_eq_true]
      exact ⟨g, hg, by simp⟩
    apply Bool.coe_iff_coe.mp
    rw [List.elem_iff, List.elem_iff, List.mem_filter]
    simp [hknown]
  · intro hcase
    rcases hcase with hnone | hsome0 | ⟨ids, hids, hsel⟩
    · subst hnone
      exact ⟨_, rfl, rfl, rfl⟩
    · subst hsome0
      exact ⟨_, rfl, rfl, rfl⟩
    · subst hids
      simp only [fixGaps]
      cases hie : ids.isEmpty with
      | true =>
        rw [if_pos rfl]
        exact ⟨_, rfl, rfl, rfl⟩
      | false =>
        rw [if_neg Bool.false_ne_true]
        have hse : (selectedGapsOf ids).isEmpty = true := by rw [hsel]; rfl
        rw [if_pos hse]
        exact ⟨_, rfl, rfl, rfl⟩

/-- Witness for C4 at a concrete entirely-unknown id list. -/
theorem fixGaps_drops_unknown_and_rejects_empty_witness :
    (some ["bogus_id"] = (none : Option (List String)) ∨
      some ["bogus_id"] = some ([] : List String) ∨
      ∃ ids, some ["bogus_id"] = some ids ∧ selectedGapsOf ids = []) ∧
    (∃ msg, (fixGaps initialState (some ["bogus_id"]) cxFetch "b" 9 "u" "t").response =
        FixResult.clientError 400 msg ∧
      (fixGaps initialState (some ["bogus_id"]) cxFetch "b" 9 "u" "t").remoteOps = [] ∧
      (fixGaps initialState (some ["bogus_id"]) cxFetch "b" 9 "u" "t").state = initialState) := by
  have hyp : some ["bogus_id"] = (none : Option (List String)) ∨
      some ["bogus_id"] = some ([] : List String) ∨
      ∃ ids, some ["bogus_id"] = some ids ∧ selectedGapsOf ids = [] :=
    Or.inr (Or.inr ⟨["bogus_id"], rfl, rfl⟩)
  exact ⟨hyp,
    (fixGaps_drops_unknown_and_rejects_empty initialState cxFetch "b" 9 "u" "t"
      (some ["bogus_id"])).2 hyp⟩

lemma groupGaps_fst_fetch (fetch : String → Option String) (gaps : List DocGap) :
    ∀ (acc : List (String × FileGroup)) (ops : List RemoteOp),
    (∀ e ∈ acc, (fetch e.1).isSome) →
    ∀ e ∈ (groupGaps fetch gaps acc ops).1, (fetch e.1).isSome := by
  induction gaps with
  | nil =>
    intro acc ops h e he
    exact h e (by simpa [groupGaps] using he)
  | cons g rest ih =>
    intro acc ops h e he
    cases hlk : lookupKey acc g.suggested_fix.file with
    | some grp =>
      simp only [groupGaps, hlk] at he
      refine ih _ _ ?_ e he
      intro e2 he2
      rcases mem_setKey _ _ _ e2 he2 with h1 | h1
      · subst h1
        simpa using h _ (lookupKey_mem _ _ _ hlk)
      · exact h e2 h1
    | none =>
      cases hf : fetch g.suggested_fix.file with
      | none =>
        simp only [groupGaps, hlk, hf] at he
        exact ih _ _ h e he
      | some c =>
        simp only [groupGaps, hlk, hf] at he
        refine ih _ _ ?_ e he
        intro e2 he2
        rcases List.mem_append.1 he2 with h1 | h1
        · exact h e2 h1
        · simp only [List.mem_singleton] at h1
          subst h1
          simp [hf]

lemma groupGaps_snd_shape (fetch : String → Option String) (gaps : List DocGap) :
    ∀ (acc : List (String × FileGroup)) (ops : List RemoteOp),
    ∀ op ∈ (groupGaps fetch gaps acc ops).2,
      op ∈ ops ∨ ∃ p, op = RemoteOp.getContent p := by
  induction gaps with
  | nil =>
    intro acc ops op hop
    exact Or.inl (by simpa [groupGaps] using hop)
  | cons g rest ih =>
    intro acc ops op hop
    cases hlk : lookupKey acc g.suggested_fix.file with
    | some grp =>
      simp only [groupGaps, hlk] at hop
      exact ih _ _ op hop
    | none =>
      cases hf : fetch g.suggested_fix.file with
      | none =>
        simp only [groupGaps, hlk, hf] at hop
        rcases ih _ _ op hop with h1 | h1
        · rcases List.mem_append.1 h1 with h2 | h2
          · exact Or.inl h2
          · simp only [List.mem_singleton] at h2
            exact Or.inr ⟨_, h2⟩
        · exact Or.inr h1
      | some c =>
        simp only [groupGaps, hlk, hf] at hop
        rcases ih _ _ op hop with h1 | h1
        · rcases List.mem_append.1 h1 with h2 | h2
          · exact Or.inl h2
          · simp only [List.mem_singleton] at h2
            exact Or.inr ⟨_, h2⟩
        · exact Or.inr h1

/-- C5 (amended): a fix-gaps batch whose id list selects a non-empty set
of gaps succeeds even when some (or all) target files cannot be fetched;
the gaps of an unfetchable file are silently skipped — that file appears
neither in the created Review nor among the committed files. -/
theorem fixGaps_skips_unfetchable (st : ServerState) (ids : List String)
    (fetch : String → Option String) (b : String) (n : Nat) (u t : String)
    (h1 : ids.isEmpty = false) (h2 : (selectedGapsOf ids).isEmpty = false) :
    ∃ r : Review,
      (fixGaps st (some ids) fetch b n u t).response = FixResult.success r ∧
      ∀ fp, fetch fp = none →
        (∀ e ∈ r.files, e.1 ≠ fp) ∧
        (∀ ow rp c br,
          RemoteOp.commitOp ow rp fp c br ∉ (fixGaps st (some ids) fetch b n u t).remoteOps) := by
  simp only [fixGaps]
  rw [if_neg (by simp [h1]), if_neg (by simp [h2])]
  refine ⟨_, rfl, ?_⟩
  intro fp hfp
  have hkeys : ∀ e ∈ (groupGaps fetch (selectedGapsOf ids) [] []).1, (fetch e.1).isSome :=
    groupGaps_fst_fetch fetch _ [] [] (by intro e he; cases he)
  constructor
  · intro e he hefp
    simp only [List.mem_map] at he
    obtain ⟨pc, hpc, rfl⟩ := he
    obtain ⟨pg, hpg, rfl⟩ := hpc
    have hS := hkeys pg hpg
    simp only at hefp
    rw [hefp, hfp] at hS
    simp at hS
  · intro ow rp c br hmem
    rcases List.mem_append.1 hmem with hA | hB
    · rcases groupGaps_snd_shape fetch _ [] [] _ hA with h3 | ⟨p, h3⟩
      · cases h3
      · exact RemoteOp.noConfusion h3
    · rcases List.mem_cons.1 hB with h3 | hB2
      · exact RemoteOp.noConfusion h3
      rcases List.mem_cons.1 hB2 with h3 | hB3
      · exact RemoteOp.noConfusion h3
      rcases List.mem_append.1 hB3 with hC | hD
      · simp only [List.mem_map] at hC
        obtain ⟨pc, hpc, heq⟩ := hC
        obtain ⟨pg, hpg, rfl⟩ := hpc
        injection heq with e1 e2 e3 e4 e5
        have hS := hkeys pg hpg
        simp only at e3
        rw [e3, hfp] at hS
        simp at hS
      · simp only [List.mem_singleton] at hD
        exact RemoteOp.noConfusion hD

/-- Witness for the amended C5 at a concrete batch where one of the two
target files cannot be fetched. -/
theorem fixGaps_skips_unfetchable_witness :
    ((["gap_001", "gap_002"] : List String).isEmpty = false ∧
      (selectedGapsOf ["gap_001", "gap_002"]).isEmpty = false) ∧
    (∃ r : Review,
      (fixGaps initialState (some ["gap_001", "gap_002"]) cxFetch "docs-fix-1" 7 "u" "t").response =
        FixResult.success r ∧
      ∀ fp, cxFetch fp = none →
        (∀ e ∈ r.files, e.1 ≠ fp) ∧
        (∀ ow rp c br,
          RemoteOp.commitOp ow rp fp c br ∉
            (fixGaps initialState (some ["gap_001", "gap_002"]) cxFetch "docs-fix-1" 7 "u" "t").remoteOps)) :=
  ⟨⟨rfl, rfl⟩, fixGaps_skips_unfetchable initialState _ cxFetch "docs-fix-1" 7 "u" "t" rfl rfl⟩

/-- Counterexample to C5 as stated: the batch selects `gap_001` (target
`docs/getting-started.md`, whose content `cxFetch` cannot fetch) together
with `gap_002`, yet the request succeeds rather than failing the whole
batch. -/
theorem fixGaps_unfetchable_batch_still_succeeds :
    cxFetch "docs/getting-started.md" = none ∧
    (∃ g ∈ selectedGapsOf ["gap_001", "gap_002"],
      g.suggested_fix.file = "docs/getting-started.md") ∧
    FixResult.isSuccess
      (fixGaps initialState (some ["gap_001", "gap_002"]) cxFetch "docs-fix-1" 7 "u" "t").response =
      true := by
  refine ⟨rfl, ⟨gap001, ?_, rfl⟩, rfl⟩
  have h : selectedGapsOf ["gap_001", "gap_002"] = [gap001, gap002] := rfl
  rw [h]
  exact List.mem_cons_self _ _

lemma step_spec (st : ServerState) (op : Op) (h : op.isReset = false) :
    ((step st op).2 = [] ∧ (step st op).1.reviewIdCounter = st.reviewIdCounter) ∨
    ((step st op).2 = [st.reviewIdCounter] ∧
      (step st op).1.reviewIdCounter = st.reviewIdCounter + 1) := by
  cases op with
  | opMedium files b n u t =>
    cases hc : (collectUpdates files).isEmpty with
    | true =>
      left
      simp only [step, handleMediumAccess]
      rw [if_pos hc]
      exact ⟨rfl, rfl⟩
    | false =>
      right
      simp only [step, handleMediumAccess]
      rw [if_neg (by simp [hc])]
      exact ⟨rfl, rfl⟩
  | opFixGaps g f b n u t =>
    cases g with
    | none => exact Or.inl ⟨rfl, rfl⟩
    | some ids =>
      cases hie : ids.isEmpty with
      | true =>
        left
        simp only [step, fixGaps]
        rw [if_pos hie]
        exact ⟨rfl, rfl⟩
      | false =>
        cases hse : (selectedGapsOf ids).isEmpty with
        | true =>
          left
          simp only [step, fixGaps]
          rw [if_neg (by simp [hie]), if_pos hse]
          exact ⟨rfl, rfl⟩
        | false =>
          right
          simp only [step, fixGaps]
          rw [if_neg (by simp [hie]), if_neg (by simp [hse])]
          exact ⟨rfl, rfl⟩
  | opApprove rid =>
    left
    cases hlk : lookupKey st.pendingReviews rid with
    | none =>
      simp only [step, approve, hlk]
      exact ⟨trivial, trivial⟩
    | some r =>
      cases hpn : r.prNumber with
      | none =>
        simp only [step, approve, hlk, hpn]
        exact ⟨trivial, trivial⟩
      | some pn =>
        simp only [step, approve, hlk, hpn]
        exact ⟨trivial, trivial⟩
  | opReset prs =>
    simp [Op.isReset] at h

lemma runOps_spec (ops : List Op) : ∀ st : ServerState,
    (∀ op ∈ ops, op.isReset = false) →
    st.reviewIdCounter ≤ (runOps st ops).1.reviewIdCounter ∧
    (∀ i ∈ (runOps st ops).2,
      st.reviewIdCounter ≤ i ∧ i < (runOps st ops).1.reviewIdCounter) ∧
    List.Pairwise (fun a b => a < b) (runOps st ops).2 := by
  induction ops with
  | nil =>
    intro st h
    refine ⟨le_refl _, ?_, ?_⟩
    · intro i hi
      simp [runOps] at hi
    · simp [runOps]
  | cons op rest ih =>
    intro st h
    have hop := h op (List.mem_cons_self _ _)
    have hrest : ∀ o ∈ rest, o.isReset = false := fun o ho => h o (List.mem_cons_of_mem _ ho)
    obtain ⟨ihle, ihmem, ihpw⟩ := ih (step st op).1 hrest
    simp only [runOps]
    rcases step_spec st op hop with ⟨hids, hcnt⟩ | ⟨hids, hcnt⟩
    · rw [hids, List.nil_append]
      rw [hcnt] at ihle
      refine ⟨ihle, ?_, ihpw⟩
      intro i hi
      obtain ⟨hlo, hhi⟩ := ihmem i hi
      rw [hcnt] at hlo
      exact ⟨hlo, hhi⟩
    · rw [hids, List.singleton_append]
      rw [hcnt] at ihle
      refine ⟨?_, ?_, ?_⟩
      · omega
      · intro i hi
        rcases List.mem_cons.1 hi with rfl | hi2
        · constructor
          · exact le_refl _
          · obtain h3 := ihle
            omega
        · obtain ⟨hlo, hhi⟩ := ihmem i hi2
          rw [hcnt] at hlo
          constructor
          · omega
          · exact hhi
      · rw [List.pairwise_cons]
        refine ⟨?_, ihpw⟩
        intro i hi
        obtain ⟨hlo, _⟩ := ihmem i hi
        rw [hcnt] at hlo
        omega

/-- C3 (amended): review ids assigned by review-mode orchestration and by
fix-gaps are strictly increasing across sequential creations in any
request sequence that contains no reset; a successful reset restores the
id counter to 1 (and clears the store), so ids may repeat afterwards. -/
theorem reviewIds_increase_between_resets (ops : List Op)
    (h : ∀ op ∈ ops, op.isReset = false) :
    List.Pairwise (fun a b => a < b) (assignedIds ops) :=
  (runOps_spec ops initialState h).2.2

/-- Witness for the amended C3: a reset-free sequence creating two
reviews. -/
theorem reviewIds_increase_between_resets_witness :
    (∀ op ∈ strictOps, op.isReset = false) ∧
    List.Pairwise (fun a b => a < b) (assignedIds strictOps) := by
  have hyp : ∀ op ∈ strictOps, op.isReset = false := by
    intro op hop
    simp only [strictOps] at hop
    rcases List.mem_cons.1 hop with rfl | hop2
    · rfl
    · rcases List.mem_cons.1 hop2 with rfl | hop3
      · rfl
      · cases hop3
  exact ⟨hyp, reviewIds_increase_between_resets strictOps hyp⟩

/-- Counterexample to C3 as stated: with a reset between two review
creations the assigned ids are [1, 1] — not strictly increasing over the
process lifetime, because `POST /reset` sets the id counter back to 1. -/
theorem reviewIds_reset_counterexample :
    ¬ List.Pairwise (fun a b : Nat => a < b) (assignedIds cexOps) := by
  have h : assignedIds cexOps = [1, 1] := rfl
  rw [h]
  intro hp
  have := (List.pairwise_cons.1 hp).1 1 (List.mem_cons_self _ _)
  omega

end Oqoqo
